import Mathlib

/-!
Verification development for the rt-stt daemon.

This file gives a shallow embedding, in Lean 4, of the parts of the
rt-stt C++ source that the specification claims talk about:

* `src/audio/vad.cpp` — the energy-based voice activity detector
  (four-state machine, adaptive noise floor, pre-speech ring buffer);
* `src/stt/engine.cpp` — the engine wiring around the VAD (speech
  buffer accumulation, the VAD state-change callback that enqueues
  utterances, pause/resume, `set_model`);
* `src/stt/whisper_wrapper.cpp` — the text cleanup performed on
  transcription results in `process_stream`;
* `src/ipc/server.cpp` and `src/main.cpp` — length-prefixed message
  framing, per-client error handling, and the command dispatch.

Machine floats are modelled as rationals (`ℚ`); the C++ code only
adds, multiplies, compares and takes max of these quantities, so
the control flow embeds faithfully.  A frame's RMS energy
(`VAD::calculate_energy`, a square root and hence irrational in
general) is carried as a field of `Frame` rather than recomputed:
every decision in the embedded code depends on the energy value
only through comparisons.
-/

namespace RtStt

/-- The four VAD states from `vad.h` (`VAD::State`). -/
inductive VadState where
  | silence
  | speechMaybe
  | speech
  | speechEnding
deriving DecidableEq, Repr

/-- `VADConfig` from `vad.h`.  Millisecond and sample-rate fields are
naturals (the C++ ints are nonnegative in every use); energy values are
rationals. -/
structure VADConfig where
  energy_threshold : ℚ
  speech_start_threshold : ℚ
  speech_end_threshold : ℚ
  speech_start_ms : ℕ
  speech_end_ms : ℕ
  min_speech_ms : ℕ
  pre_speech_buffer_ms : ℕ
  use_adaptive_threshold : Bool
  noise_floor_adaptation_rate : ℚ
  sample_rate : ℕ
deriving DecidableEq, Repr

/-- An audio frame: the samples of one driver buffer together with its
RMS energy (the value `VAD::calculate_energy` computes from them). -/
structure Frame where
  samples : List ℚ
  energy : ℚ
deriving DecidableEq, Repr

/-- The mutable state of the `VAD` class (`vad.h` data members). -/
structure VAD where
  config : VADConfig
  state : VadState
  current_energy : ℚ
  noise_floor : ℚ
  speech_frames : ℕ
  silence_frames : ℕ
  energy_history : List ℚ
  energy_history_idx : ℕ
  audio_buffer : List ℚ
deriving DecidableEq, Repr

namespace VAD

/-- `frames_per_ms_ = config_.sample_rate / 1000` (integer division). -/
def framesPerMs (v : VAD) : ℕ := v.config.sample_rate / 1000

/-- `buffer_max_samples_ = (pre_speech_buffer_ms * sample_rate) / 1000`. -/
def bufferMaxSamples (v : VAD) : ℕ :=
  v.config.pre_speech_buffer_ms * v.config.sample_rate / 1000

/-- The `VAD` constructor (`vad.cpp` lines 9-24): state `SILENCE`, noise
floor seeded with `energy_threshold`, 100-entry energy history filled
with `energy_threshold`. -/
def init (c : VADConfig) : VAD :=
  { config := c
    state := .silence
    current_energy := 0
    noise_floor := c.energy_threshold
    speech_frames := 0
    silence_frames := 0
    energy_history := List.replicate 100 c.energy_threshold
    energy_history_idx := 0
    audio_buffer := [] }

/-- The circular history after writing the current energy at the write
index (`energy_history_[energy_history_idx_] = energy`). -/
def newHistory (v : VAD) (energy : ℚ) : List ℚ :=
  v.energy_history.set v.energy_history_idx energy

/-- The 20th-percentile read: element at index `n / 5` of a sorted copy
of the history (`sorted_history[sorted_history.size() / 5]`). -/
def sortedP20 (hist : List ℚ) : ℚ :=
  (List.insertionSort (· ≤ ·) hist).getD (hist.length / 5) 0

/-- `VAD::update_noise_floor` (`vad.cpp` lines 126-145): write the
energy into the ring, advance the index, take the 20th percentile of a
sorted copy, smooth with `noise_floor_adaptation_rate`, and clamp to at
least `energy_threshold * 0.5`. -/
def update_noise_floor (v : VAD) (energy : ℚ) : VAD :=
  let hist := v.newHistory energy
  let idx := (v.energy_history_idx + 1) % hist.length
  let new_noise_floor := sortedP20 hist
  let smoothed := v.noise_floor * (1 - v.config.noise_floor_adaptation_rate) +
    new_noise_floor * v.config.noise_floor_adaptation_rate
  { v with
    energy_history := hist
    energy_history_idx := idx
    noise_floor := max smoothed (v.config.energy_threshold * (1 / 2)) }

/-- `VAD::update_buffer` (`vad.cpp` lines 158-168): append the samples,
then pop from the front while the deque exceeds `buffer_max_samples_`. -/
def update_buffer (v : VAD) (samples : List ℚ) : VAD :=
  let buf := v.audio_buffer ++ samples
  { v with audio_buffer := buf.drop (buf.length - v.bufferMaxSamples) }

/-- Lines 26-36 of `VAD::process`: record the frame energy, update the
noise floor when adaptive and in `SILENCE`, and update the pre-speech
buffer.  Runs before the state machine switch. -/
def updatePhase (v : VAD) (f : Frame) : VAD :=
  let v1 := { v with current_energy := f.energy }
  let v2 :=
    if v1.config.use_adaptive_threshold = true ∧ v1.state = VadState.silence then
      v1.update_noise_floor v1.current_energy
    else v1
  v2.update_buffer f.samples

/-- The speech threshold of `VAD::process` (lines 40-42): a multiplier
of the noise floor when adaptive, else the raw configured value. -/
def speechThreshold (v : VAD) : ℚ :=
  if v.config.use_adaptive_threshold = true then
    v.noise_floor * v.config.speech_start_threshold
  else v.config.speech_start_threshold

/-- The silence threshold of `VAD::process` (lines 51-53). -/
def silenceThreshold (v : VAD) : ℚ :=
  if v.config.use_adaptive_threshold = true then
    v.noise_floor * v.config.speech_end_threshold
  else v.config.speech_end_threshold

/-- The state-machine switch of `VAD::process` (lines 55-109), acting on
the state produced by `updatePhase`; `n` is `n_samples`. -/
def machineStep (v : VAD) (n : ℕ) : VAD :=
  match v.state with
  | .silence =>
      if v.current_energy > v.speechThreshold then
        { v with state := .speechMaybe, speech_frames := n, silence_frames := 0 }
      else v
  | .speechMaybe =>
      if v.current_energy > v.speechThreshold then
        let sf := v.speech_frames + n
        if sf ≥ v.config.speech_start_ms * v.framesPerMs then
          { v with state := .speech, speech_frames := sf }
        else
          { v with speech_frames := sf }
      else
        { v with state := .silence, speech_frames := 0 }
  | .speech =>
      if v.current_energy < v.silenceThreshold then
        { v with state := .speechEnding, silence_frames := n }
      else
        { v with speech_frames := v.speech_frames + n }
  | .speechEnding =>
      if v.current_energy < v.silenceThreshold then
        let sl := v.silence_frames + n
        if sl ≥ v.config.speech_end_ms * v.framesPerMs then
          { v with state := .silence, speech_frames := 0, silence_frames := 0 }
        else
          { v with silence_frames := sl }
      else
        { v with state := .speech, silence_frames := 0 }

/-- `VAD::process` (`vad.cpp` lines 26-112): energy/noise-floor/buffer
updates followed by the state machine switch. -/
def process (v : VAD) (f : Frame) : VAD :=
  (v.updatePhase f).machineStep f.samples.length

/-- Feeding a sequence of frames through `process`. -/
def processList (v : VAD) (fs : List Frame) : VAD :=
  fs.foldl process v

/-- `VAD::reset` (`vad.cpp` lines 187-199). -/
def reset (v : VAD) : VAD :=
  let v1 := { v with
    state := VadState.silence
    speech_frames := 0
    silence_frames := 0
    audio_buffer := []
    current_energy := 0 }
  if v1.config.use_adaptive_threshold = true then
    { v1 with
      noise_floor := v1.config.energy_threshold
      energy_history := List.replicate v1.energy_history.length v1.config.energy_threshold
      energy_history_idx := 0 }
  else v1

end VAD

/-- The whisper wrapper's observable model state: the configured model
path (`impl_->config.model_path`) and whether `whisper_init_from_file`
succeeded (`impl_->ctx != nullptr`). -/
structure WhisperModel where
  config_path : String
  ctx_loaded : Bool
deriving DecidableEq, Repr

namespace WhisperModel

/-- A freshly constructed `WhisperWrapper` (`std::make_unique`): no
context loaded, empty config. -/
def fresh : WhisperModel := { config_path := "", ctx_loaded := false }

/-- `WhisperWrapper::initialize`: stores the config, then attempts the
model load; `ok` is whether `whisper_init_from_file_with_params`
returns a non-null context. -/
def initializeW (path : String) (ok : Bool) : WhisperModel :=
  { config_path := path, ctx_loaded := ok }

end WhisperModel

/-- An entry of the engine's `audio_queue_` (`STTEngine::AudioChunk`,
omitting the timestamp). -/
structure AudioChunk where
  samples : List ℚ
  is_speech_end : Bool
deriving DecidableEq, Repr

/-- The engine configuration fields the claims touch
(`STTEngine::Config` in `engine.h`). -/
structure STTConfig where
  model_path : String
  vad_config : VADConfig
  max_queue_size : ℕ
deriving DecidableEq, Repr

/-- The engine state (`STTEngine` data members in `engine.h`). -/
structure EngineState where
  running : Bool
  paused : Bool
  config : STTConfig
  vad : VAD
  whisper : WhisperModel
  speech_buffer : List ℚ
  audio_queue : List AudioChunk
  in_speech : Bool
  processed_samples : ℕ
deriving DecidableEq, Repr

namespace STTEngine

/-- The hard-coded `size_t min_samples = 8000; // 0.5 seconds minimum`
in the VAD state callback (`engine.cpp` line 92). -/
def min_samples : ℕ := 8000

/-- The VAD state-change callback installed by `STTEngine::initialize`
(`engine.cpp` lines 46-132), with terminal output elided:

* on `SILENCE → SPEECH_MAYBE`, clear the speech buffer;
* on `SPEECH_MAYBE → SPEECH`, prepend the pre-speech ring;
* on `SPEECH_ENDING → SILENCE`, push the buffer to `audio_queue_` when
  it is non-empty, strictly larger than `min_samples`, and the engine
  is not paused; otherwise discard it.

The `vad` field already reflects the state at callback time: the
callback fires from `change_state` inside `VAD::process`, after the
pre-speech buffer update. -/
def onVadStateChange (old new : VadState) (st : EngineState) : EngineState :=
  let st1 :=
    if old = VadState.silence ∧ new = VadState.speechMaybe then
      { st with speech_buffer := [] }
    else st
  let st2 :=
    if old = VadState.speechMaybe ∧ new = VadState.speech then
      let pre := st1.vad.audio_buffer
      if pre ≠ [] then { st1 with speech_buffer := pre ++ st1.speech_buffer } else st1
    else st1
  if old = VadState.speechEnding ∧ new = VadState.silence then
    if st2.speech_buffer ≠ [] ∧ st2.speech_buffer.length > min_samples ∧
        st2.paused = false then
      { st2 with
        audio_queue := st2.audio_queue ++ [⟨st2.speech_buffer, true⟩]
        speech_buffer := [] }
    else if st2.speech_buffer ≠ [] then
      { st2 with speech_buffer := [] }
    else st2
  else st2

/-- Running the VAD on a frame and firing the state-change callback
when the state changed (`vad_->process` plus `change_state`'s callback
invocation). -/
def vadPhase (st : EngineState) (f : Frame) : EngineState :=
  let v := st.vad.process f
  let st1 := { st with vad := v }
  if v.state ≠ st.vad.state then onVadStateChange st.vad.state v.state st1 else st1

/-- `STTEngine::feed_audio` (`engine.cpp` lines 200-288): drop the
frame when not running or paused; run the VAD; force the `SPEECH`
state when `energy_threshold == 0.0f`; accumulate speech-state audio
into the speech buffer; count processed samples. -/
def feed_audio (st : EngineState) (f : Frame) : EngineState :=
  if st.running = false ∨ st.paused = true then st
  else
    let vad_disabled := st.config.vad_config.energy_threshold = 0
    let st2 := vadPhase st f
    let vad_state := if vad_disabled then VadState.speech else st2.vad.state
    let st3 :=
      if vad_state = VadState.speech ∨ vad_state = VadState.speechEnding ∨
          vad_state = VadState.speechMaybe then
        { st2 with
          speech_buffer := st2.speech_buffer ++ f.samples
          in_speech := true }
      else if vad_state = VadState.silence then
        { st2 with in_speech := false }
      else st2
    { st3 with processed_samples := st3.processed_samples + f.samples.length }

/-- `STTEngine::pause` (`engine.cpp` lines 185-190). -/
def pause (st : EngineState) : EngineState := { st with paused := true }

/-- `STTEngine::resume` (`engine.cpp` lines 192-198): clears the
paused flag and notifies the worker; nothing else. -/
def resume (st : EngineState) : EngineState := { st with paused := false }

/-- `STTEngine::clear_buffers` (`engine.cpp` lines 493-503). -/
def clear_buffers (st : EngineState) : EngineState :=
  { st with
    speech_buffer := []
    in_speech := false
    audio_queue := []
    vad := st.vad.reset }

/-- `STTEngine::stop` (`engine.cpp` lines 168-183): no-op when not
running; otherwise stop the worker and clear all buffers. -/
def stop (st : EngineState) : EngineState :=
  if st.running = false then st
  else clear_buffers { st with running := false }

/-- `STTEngine::start` (`engine.cpp` lines 152-166). -/
def start (st : EngineState) : EngineState :=
  if st.running = true then st
  else { st with running := true, paused := false }

/-- `STTEngine::set_model` (`engine.cpp` lines 393-419): stop if
running, point the config at the new path, replace `whisper_` by a
fresh instance, initialize it (`loadOk` says whether the load
succeeds), and on failure throw `"Failed to load model: " ++ path`
(returned as `some` message) — note the prior wrapper is destroyed
before the load is attempted.  On success restart if it was running. -/
def set_model (st : EngineState) (path : String) (loadOk : Bool) :
    EngineState × Option String :=
  let was_running := st.running
  let st1 := if was_running = true then stop st else st
  let st2 := { st1 with config := { st1.config with model_path := path } }
  let st3 := { st2 with whisper := WhisperModel.fresh }
  let st4 := { st3 with whisper := WhisperModel.initializeW path loadOk }
  if loadOk = false then
    (st4, some ("Failed to load model: " ++ path))
  else
    (if was_running = true then start st4 else st4, none)

end STTEngine

namespace WhisperWrapper

/-- The whitespace set used by the trimming calls in
`WhisperWrapper::process_stream` (`" \t\n\r"`). -/
def isTrimWs (c : Char) : Bool :=
  c = ' ' ∨ c = '\t' ∨ c = '\n' ∨ c = '\r'

/-- One iteration of the `while ((pos = cleaned.find("  ", pos)) ...)`
loop (`whisper_wrapper.cpp` lines 161-164): replace the leftmost
occurrence of two consecutive spaces by a single space, or report that
none exists. -/
def replaceFirstDoubleSpace : List Char → Option (List Char)
  | [] => none
  | c :: rest =>
      if c = ' ' ∧ rest.head? = some ' ' then some rest
      else (replaceFirstDoubleSpace rest).map (c :: ·)

theorem replaceFirstDoubleSpace_length :
    ∀ {l l' : List Char}, replaceFirstDoubleSpace l = some l' →
      l'.length < l.length := by
  intro l
  induction l with
  | nil => intro l' h; simp [replaceFirstDoubleSpace] at h
  | cons c rest ih =>
      intro l' h
      rw [replaceFirstDoubleSpace] at h
      by_cases hc : c = ' ' ∧ rest.head? = some ' '
      · simp [hc] at h
        subst h
        simp
      · simp [hc] at h
        obtain ⟨r', hr', hl'⟩ := h
        subst hl'
        simpa using Nat.succ_lt_succ (ih hr')

/-- The full `remove multiple spaces` loop of `process_stream`:
repeatedly replace the leftmost double space until none remains. -/
def collapseSpacesLoop (l : List Char) : List Char :=
  match h : replaceFirstDoubleSpace l with
  | some l' => collapseSpacesLoop l'
  | none => l
termination_by l.length
decreasing_by exact replaceFirstDoubleSpace_length h

/-- Structural characterisation of the loop: drop a space whenever the
next character is also a space. -/
def collapseSpacesRec : List Char → List Char
  | [] => []
  | c :: rest =>
      if c = ' ' ∧ rest.head? = some ' ' then collapseSpacesRec rest
      else c :: collapseSpacesRec rest

/-- The trim step of `process_stream` (`find_first_not_of` /
`find_last_not_of` and `substr`, lines 167-171): when some character is
not whitespace, strip whitespace from both ends; when every character
is whitespace the condition `first != npos && last != npos` fails and
the string is left unchanged. -/
def trimCpp (l : List Char) : List Char :=
  if l.any (fun c => !(isTrimWs c)) then
    ((l.dropWhile (fun c => isTrimWs c)).reverse.dropWhile
      (fun c => isTrimWs c)).reverse
  else l

/-- The cleanup pipeline applied to a transcription's text:
space-collapsing loop followed by the trim. -/
def cleanupText (raw : List Char) : List Char :=
  trimCpp (collapseSpacesLoop raw)

/-- A result emitted by `process_stream`'s callback. -/
structure StreamResult where
  text : List Char
  is_final : Bool
deriving DecidableEq, Repr

/-- The emission decision of `WhisperWrapper::process_stream`
(`whisper_wrapper.cpp` lines 146-192): skip empty raw text; clean it;
emit exactly one final result when the cleaned text contains an
alphanumeric character and has length greater than one. -/
def process_stream_emit (raw : List Char) : Option StreamResult :=
  if raw = [] then none
  else
    let cleaned := cleanupText raw
    if cleaned.any Char.isAlphanum ∧ 1 < cleaned.length then
      some { text := cleaned, is_final := true }
    else none

/-- Modelled from the spec's words for comparison: "Collapse runs of
internal whitespace to a single space" — every maximal run of
whitespace characters becomes one `' '`.  `inRun` records whether the
previous character was whitespace. -/
def specWsCollapseAux (inRun : Bool) : List Char → List Char
  | [] => []
  | c :: rest =>
      if isTrimWs c then
        if inRun then specWsCollapseAux true rest
        else ' ' :: specWsCollapseAux true rest
      else c :: specWsCollapseAux false rest

/-- Modelled from the spec's words: whitespace-run collapsing over a
whole string. -/
def specWsCollapse (l : List Char) : List Char :=
  specWsCollapseAux false l

end WhisperWrapper

/-- A JSON-like value (the fragment of `nlohmann::json` the claims
need). -/
inductive Json where
  | null
  | bool (b : Bool)
  | num (q : ℚ)
  | str (s : String)
  | arr (l : List Json)
  | obj (l : List (String × Json))

namespace Json

/-- `j.value(key, dflt)` for string values: the stored string when the
object has the key with a string value, the default otherwise. -/
def valueStr (j : Json) (key dflt : String) : String :=
  match j with
  | .obj l =>
      match l.lookup key with
      | some (.str s) => s
      | _ => dflt
  | _ => dflt

/-- `msg.data.value("params", nlohmann::json::object())`. -/
def valueParams (j : Json) : Json :=
  match j with
  | .obj l =>
      match l.lookup "params" with
      | some v => v
      | none => .obj []
  | _ => .obj []

end Json

/-- `Message::Type` from `server.h`: `COMMAND`, `SUBSCRIBE`,
`UNSUBSCRIBE`, `TRANSCRIPTION`, `STATUS`, `ERROR`, `ACKNOWLEDGMENT`
in declaration order. -/
inductive MsgType where
  | command
  | subscribe
  | unsubscribe
  | transcription
  | status
  | error
  | acknowledgment
deriving DecidableEq, Repr

/-- The wire value of each message type (the C++ enum's underlying
value: `COMMAND = 0`, …, `ERROR = 5`, `ACKNOWLEDGMENT = 6`). -/
def MsgType.toNat : MsgType → ℕ
  | .command => 0
  | .subscribe => 1
  | .unsubscribe => 2
  | .transcription => 3
  | .status => 4
  | .error => 5
  | .acknowledgment => 6

/-- `ipc::Message` from `server.h`. -/
structure Message where
  type : MsgType
  id : String
  data : Json

namespace Main

/-- The daemon's command handler (`main.cpp` lines 252-366).  The
engine-visible effect and reply of each recognised action is abstracted
by `engineResult`; what the embedding keeps is the dispatch structure:
a chain of comparisons over the recognised action names, a `throw` of
`"Unknown action: " ++ action` for anything else, and a `catch` inside
the handler itself that converts any exception into the regular result
`{error: e.what(), success: false}` — so the handler never lets an
exception escape to the IPC server (`Except.ok` in every case). -/
def commandHandler (engineResult : String → Json → Json)
    (action : String) (params : Json) : Except String Json :=
  Except.ok <|
    if action = "pause" ∨ action = "resume" ∨ action = "get_status" ∨
        action = "get_config" ∨ action = "set_config" ∨
        action = "set_language" ∨ action = "set_model" ∨
        action = "set_vad_sensitivity" ∨ action = "get_metrics" then
      engineResult action params
    else
      Json.obj [("error", Json.str ("Unknown action: " ++ action)),
                ("success", Json.bool false)]

end Main

namespace Server

/-- The `COMMAND` case of `Server::process_message` (`server.cpp`
lines 296-323): extract `action` and `params` from the message data,
run the registered handler, and reply with an `ACKNOWLEDGMENT`
carrying `{success: true, result: <handler result>}`; if the handler
throws, reply with an `ERROR` carrying `{message: e.what()}`. -/
def processCommand (handler : String → Json → Except String Json)
    (msg : Message) : Message :=
  let action := msg.data.valueStr "action" ""
  let params := msg.data.valueParams
  match handler action params with
  | .ok result =>
      { type := .acknowledgment
        id := msg.id
        data := Json.obj [("success", Json.bool true), ("result", result)] }
  | .error e =>
      { type := .error
        id := msg.id
        data := Json.obj [("message", Json.str e)] }

/-- A subscriber record (`ClientInfo` in `server.h`, without the
thread handle). -/
structure ClientRec where
  id : String
  subscribed : Bool
deriving DecidableEq, Repr

/-- The maximum accepted payload length (`1024 * 1024` in
`Server::receive_message`). -/
def maxMessageLen : ℕ := 1024 * 1024

/-- Big-endian decoding of the 4-byte length header (`ntohl` of the
bytes as received from the wire). -/
def decodeBE32 (b0 b1 b2 b3 : ℕ) : ℕ :=
  ((b0 * 256 + b1) * 256 + b2) * 256 + b3

/-- `Server::receive_message` (`server.cpp` lines 254-293) over the
connection's pending byte stream: read a 4-byte big-endian length
header (failing when fewer than 4 bytes arrive), reject lengths above
1 MiB, read exactly that many payload bytes (failing when the stream
ends first), and parse them; `parse` abstracts `nlohmann::json::parse`
plus the field extraction, and returns `none` exactly when those throw
— the surrounding `catch` turns any such exception into a `false`
return, so the error never escapes this function. -/
def receiveMessage (parse : List ℕ → Option Message) (input : List ℕ) :
    Option Message :=
  match input with
  | b0 :: b1 :: b2 :: b3 :: rest =>
      if decodeBE32 b0 b1 b2 b3 > maxMessageLen then none
      else if rest.length < decodeBE32 b0 b1 b2 b3 then none
      else parse (rest.take (decodeBE32 b0 b1 b2 b3))
  | _ => none

/-- `Server::cleanup_client` (`server.cpp` lines 420-435): erase the
client's record from the map; every other record is untouched. -/
def cleanupClient (clients : List (ℕ × ClientRec)) (fd : ℕ) :
    List (ℕ × ClientRec) :=
  clients.filter (fun p => p.1 != fd)

/-- One round of `Server::handle_client` (`server.cpp` lines 207-218):
a failed receive breaks the loop and runs `cleanup_client`; a
successful receive leaves the client set unchanged (the message goes to
`process_message`).  The boolean reports whether the connection
survives. -/
def handleClientRecv (parse : List ℕ → Option Message)
    (clients : List (ℕ × ClientRec)) (fd : ℕ) (input : List ℕ) :
    List (ℕ × ClientRec) × Bool :=
  match receiveMessage parse input with
  | none => (cleanupClient clients fd, false)
  | some _ => (clients, true)

end Server

/-! ### Spec-side definitions and witness fixtures -/

/-- Modelled from the spec's words: the four-state VAD transition table
of §4.2, as a function of the two thresholds, the speech-start and
speech-end durations converted to samples, the frame energy `e` and the
frame size `n`; it maps `(state, speech_frames, silence_frames)` to its
successor.  Written from the table rows, independently of
`VAD.machineStep`. -/
def specVadStep (speechThr silenceThr : ℚ) (startSamp endSamp : ℕ)
    (e : ℚ) (n : ℕ) : VadState × ℕ × ℕ → VadState × ℕ × ℕ
  | (.silence, sf, sl) =>
      if e > speechThr then (.speechMaybe, n, 0) else (.silence, sf, sl)
  | (.speechMaybe, sf, sl) =>
      if e > speechThr then
        if sf + n ≥ startSamp then (.speech, sf + n, sl)
        else (.speechMaybe, sf + n, sl)
      else (.silence, 0, sl)
  | (.speech, sf, sl) =>
      if e < silenceThr then (.speechEnding, sf, n) else (.speech, sf + n, sl)
  | (.speechEnding, sf, sl) =>
      if e < silenceThr then
        if sl + n ≥ endSamp then (.silence, 0, 0) else (.speechEnding, sf, sl + n)
      else (.speech, sf, 0)

/-- The daemon's default VAD configuration (`main.cpp` lines 131-139),
used as a concrete fixture by witnesses. -/
def defaultVadConfig : VADConfig :=
  { energy_threshold := 1 / 1000
    speech_start_threshold := 27 / 25
    speech_end_threshold := 17 / 20
    speech_start_ms := 150
    speech_end_ms := 1000
    min_speech_ms := 500
    pre_speech_buffer_ms := 500
    use_adaptive_threshold := true
    noise_floor_adaptation_rate := 1 / 100
    sample_rate := 16000 }

/-- A variant with the energy threshold zeroed and adaptation off, used
by witnesses that exercise the `energy_threshold == 0.0f` escape in
`feed_audio`. -/
def zeroThresholdVadConfig : VADConfig :=
  { defaultVadConfig with
    energy_threshold := 0
    use_adaptive_threshold := false }

/-- A concrete engine state used by counterexamples and witnesses: the
daemon right after `initialize`/`start` with the default configuration,
with a chosen speech buffer and utterance queue. -/
def engineFixture (buf : List ℚ) (queue : List AudioChunk) : EngineState :=
  { running := true
    paused := false
    config := { model_path := "models/ggml-small.en.bin"
                vad_config := defaultVadConfig
                max_queue_size := 100 }
    vad := VAD.init defaultVadConfig
    whisper := { config_path := "models/ggml-small.en.bin", ctx_loaded := true }
    speech_buffer := buf
    audio_queue := queue
    in_speech := true
    processed_samples := 0 }

/-- Like `engineFixture` but configured with a zero energy threshold
(VAD-disabled mode). -/
def engineFixtureZeroThreshold : EngineState :=
  { engineFixture [] [] with
    config := { model_path := "models/ggml-small.en.bin"
                vad_config := zeroThresholdVadConfig
                max_queue_size := 100 }
    vad := VAD.init zeroThresholdVadConfig }

/-- A one-sample utterance chunk used as queue filler in fixtures. -/
def chunk0 : AudioChunk := ⟨[0], true⟩

/-- Client table fixture for the IPC claims. -/
def clientsFixture : List (ℕ × Server.ClientRec) :=
  [(1, { id := "client_1", subscribed := true }),
   (2, { id := "client_2", subscribed := true })]

/-! ### Shared lemmas about `VAD.process` -/

theorem machineStep_noise_floor (v : VAD) (n : ℕ) :
    (v.machineStep n).noise_floor = v.noise_floor := by
  unfold VAD.machineStep
  cases v.state <;> dsimp only <;> split_ifs <;> rfl

theorem machineStep_config (v : VAD) (n : ℕ) :
    (v.machineStep n).config = v.config := by
  unfold VAD.machineStep
  cases v.state <;> dsimp only <;> split_ifs <;> rfl

theorem machineStep_energy_history (v : VAD) (n : ℕ) :
    (v.machineStep n).energy_history = v.energy_history := by
  unfold VAD.machineStep
  cases v.state <;> dsimp only <;> split_ifs <;> rfl

theorem updatePhase_noise_floor_of_silence (v : VAD) (f : Frame)
    (ha : v.config.use_adaptive_threshold = true)
    (hs : v.state = VadState.silence) :
    (v.updatePhase f).noise_floor =
      max ((1 - v.config.noise_floor_adaptation_rate) * v.noise_floor
            + v.config.noise_floor_adaptation_rate *
              VAD.sortedP20 (v.newHistory f.energy))
          (v.config.energy_threshold / 2) := by
  unfold VAD.updatePhase VAD.update_buffer VAD.update_noise_floor
  simp [ha, hs, VAD.newHistory]
  congr 1 <;> ring

theorem updatePhase_noise_floor_of_not (v : VAD) (f : Frame)
    (h : ¬(v.config.use_adaptive_threshold = true ∧ v.state = VadState.silence)) :
    (v.updatePhase f).noise_floor = v.noise_floor ∧
    (v.updatePhase f).energy_history = v.energy_history := by
  unfold VAD.updatePhase VAD.update_buffer
  simp [h]

theorem process_noise_floor_lb (v : VAD) (f : Frame)
    (h : v.config.energy_threshold / 2 ≤ v.noise_floor) :
    v.config.energy_threshold / 2 ≤ (v.process f).noise_floor := by
  unfold VAD.process
  rw [machineStep_noise_floor]
  by_cases hc : v.config.use_adaptive_threshold = true ∧ v.state = VadState.silence
  · rw [updatePhase_noise_floor_of_silence v f hc.1 hc.2]
    exact le_max_of_le_right (le_refl _)
  · rw [(updatePhase_noise_floor_of_not v f hc).1]
    exact h

theorem process_config (v : VAD) (f : Frame) : (v.process f).config = v.config := by
  unfold VAD.process
  rw [machineStep_config]
  unfold VAD.updatePhase VAD.update_buffer VAD.update_noise_floor
  by_cases hc2 : v.config.use_adaptive_threshold = true ∧ v.state = VadState.silence <;>
    simp [hc2]

theorem process_history_length (v : VAD) (f : Frame) :
    (v.process f).energy_history.length = v.energy_history.length := by
  unfold VAD.process
  rw [machineStep_energy_history]
  unfold VAD.updatePhase VAD.update_buffer VAD.update_noise_floor
  by_cases hc2 : v.config.use_adaptive_threshold = true ∧ v.state = VadState.silence <;>
    simp [hc2, VAD.newHistory]

theorem updatePhase_preserves (v : VAD) (f : Frame) :
    (v.updatePhase f).state = v.state ∧
    (v.updatePhase f).config = v.config ∧
    (v.updatePhase f).speech_frames = v.speech_frames ∧
    (v.updatePhase f).silence_frames = v.silence_frames ∧
    (v.updatePhase f).current_energy = f.energy := by
  unfold VAD.updatePhase VAD.update_buffer VAD.update_noise_floor
  by_cases hc2 : v.config.use_adaptive_threshold = true ∧ v.state = VadState.silence <;>
    simp [hc2]

/-! ### Claim theorems -/

/-- C1.  The transition computed by `VAD::process` on a frame with
energy `e` agrees with the spec's four-state table `specVadStep`: the
table is applied at the speech threshold
(`noise_floor · speech_start_threshold` in adaptive mode, the raw
configured value otherwise), the silence threshold
(`noise_floor · speech_end_threshold`, resp. the raw value), the
speech-start and speech-end durations in samples, the frame energy and
the frame size, the noise floor being the one current at decision time
(after this frame's in-`Silence` adaptation). -/
theorem c1_vad_transition_table (v : VAD) (f : Frame) :
    ((v.process f).state, (v.process f).speech_frames, (v.process f).silence_frames)
      = specVadStep
          (if v.config.use_adaptive_threshold = true then
            (v.updatePhase f).noise_floor * v.config.speech_start_threshold
          else v.config.speech_start_threshold)
          (if v.config.use_adaptive_threshold = true then
            (v.updatePhase f).noise_floor * v.config.speech_end_threshold
          else v.config.speech_end_threshold)
          (v.config.speech_start_ms * (v.config.sample_rate / 1000))
          (v.config.speech_end_ms * (v.config.sample_rate / 1000))
          f.energy f.samples.length
          (v.state, v.speech_frames, v.silence_frames) := by
  obtain ⟨hs, hc, hsf, hsl, he⟩ := updatePhase_preserves v f
  unfold VAD.process
  unfold VAD.machineStep
  rw [hs, hc, he, hsf, hsl]
  cases hst : v.state <;>
    simp only [hst, VAD.speechThreshold, VAD.silenceThreshold, VAD.framesPerMs,
      hc, hs, hsf, hsl, he, specVadStep] <;>
    split_ifs <;> simp_all

/-- C2.  The noise floor: it changes only in `Silence` (second
conjunct); in adaptive `Silence` an update sets it to
`(1-α)·noise_floor + α·p20` clamped from below by
`energy_threshold / 2`, where `p20` is the entry at index `n/5` of a
sorted copy of the energy history after recording the current frame
(first conjunct; third conjunct certifies that the sorted copy is a
sorted permutation of the history); the history stays a fixed 100-entry
ring (fourth conjunct); and along any run from construction the noise
floor never falls below `energy_threshold / 2` (fifth conjunct). -/
theorem c2_noise_floor_update (c : VADConfig) (h0 : 0 ≤ c.energy_threshold) :
    (∀ (v : VAD) (f : Frame), v.config.use_adaptive_threshold = true →
      v.state = VadState.silence →
      (v.process f).noise_floor =
        max ((1 - v.config.noise_floor_adaptation_rate) * v.noise_floor
              + v.config.noise_floor_adaptation_rate *
                VAD.sortedP20 (v.newHistory f.energy))
            (v.config.energy_threshold / 2))
    ∧ (∀ (v : VAD) (f : Frame),
        ¬(v.config.use_adaptive_threshold = true ∧ v.state = VadState.silence) →
        (v.process f).noise_floor = v.noise_floor ∧
        (v.process f).energy_history = v.energy_history)
    ∧ (∀ hist : List ℚ, (List.insertionSort (· ≤ ·) hist).Sorted (· ≤ ·)
        ∧ (List.insertionSort (· ≤ ·) hist).Perm hist)
    ∧ (∀ fs : List Frame, ((VAD.init c).processList fs).energy_history.length = 100)
    ∧ (∀ fs : List Frame,
        c.energy_threshold / 2 ≤ ((VAD.init c).processList fs).noise_floor) := by
  have key : ∀ (fs : List Frame) (v : VAD),
      c.energy_threshold / 2 ≤ v.noise_floor → v.config = c →
      v.energy_history.length = 100 →
      c.energy_threshold / 2 ≤ (v.processList fs).noise_floor ∧
      (v.processList fs).energy_history.length = 100 := by
    intro fs
    induction fs with
    | nil => intro v h1 _ h3; exact ⟨h1, h3⟩
    | cons f rest ih =>
        intro v h1 h2 h3
        have h1' : v.config.energy_threshold / 2 ≤ v.noise_floor := by
          rw [h2]; exact h1
        have hlb := process_noise_floor_lb v f h1'
        rw [h2] at hlb
        have hc' : (v.process f).config = c := by rw [process_config]; exact h2
        have hl' : (v.process f).energy_history.length = 100 := by
          rw [process_history_length]; exact h3
        have := ih (v.process f) hlb hc' hl'
        simpa [VAD.processList, List.foldl] using this
  have hinit : c.energy_threshold / 2 ≤ (VAD.init c).noise_floor := by
    simp [VAD.init]
    linarith
  refine ⟨?_, ?_, ?_, ?_, ?_⟩
  · intro v f ha hs
    unfold VAD.process
    rw [machineStep_noise_floor]
    exact updatePhase_noise_floor_of_silence v f ha hs
  · intro v f h
    unfold VAD.process
    rw [machineStep_noise_floor, machineStep_energy_history]
    exact updatePhase_noise_floor_of_not v f h
  · intro hist
    exact ⟨List.sorted_insertionSort _ hist, List.perm_insertionSort _ hist⟩
  · intro fs
    exact (key fs (VAD.init c) hinit rfl (by simp [VAD.init])).2
  · intro fs
    exact (key fs (VAD.init c) hinit rfl (by simp [VAD.init])).1

/-- Witness for C2 at the daemon's default configuration. -/
theorem c2_noise_floor_update_witness :
    (0 : ℚ) ≤ defaultVadConfig.energy_threshold ∧
    defaultVadConfig.energy_threshold / 2 ≤
      ((VAD.init defaultVadConfig).processList
        [{ samples := [1, 0], energy := 1 / 2 }]).noise_floor :=
  ⟨by norm_num [defaultVadConfig],
   (c2_noise_floor_update defaultVadConfig (by norm_num [defaultVadConfig])).2.2.2.2
     [{ samples := [1, 0], energy := 1 / 2 }]⟩

/-- Shared characterisation of the engine's VAD callback on the
`SPEECH_ENDING → SILENCE` transition: enqueue the buffer exactly when
it is non-empty, strictly longer than `min_samples` and not paused;
otherwise only clear it. -/
theorem onVadStateChange_endSilence (st : EngineState) :
    STTEngine.onVadStateChange VadState.speechEnding VadState.silence st =
      if st.speech_buffer ≠ [] ∧ st.speech_buffer.length > STTEngine.min_samples ∧
          st.paused = false then
        { st with
          audio_queue := st.audio_queue ++ [⟨st.speech_buffer, true⟩]
          speech_buffer := [] }
      else if st.speech_buffer ≠ [] then { st with speech_buffer := [] }
      else st := by
  unfold STTEngine.onVadStateChange
  simp

/-- C3 (corrected).  The emission rule actually implemented: on
`SPEECH_ENDING → SILENCE` the buffer is enqueued exactly when it holds
strictly more than the hard-coded `min_samples = 8000` samples (0.5 s
at 16 kHz, independent of `min_speech_ms`) and the engine is not
paused; with at most 8000 samples, or while paused, nothing is ever
enqueued. -/
theorem c3_min_speech_amended (st : EngineState) :
    (st.speech_buffer.length > STTEngine.min_samples → st.paused = false →
      (STTEngine.onVadStateChange VadState.speechEnding VadState.silence st).audio_queue
        = st.audio_queue ++ [⟨st.speech_buffer, true⟩] ∧
      (STTEngine.onVadStateChange VadState.speechEnding VadState.silence st).speech_buffer
        = [])
    ∧ ((st.speech_buffer.length ≤ STTEngine.min_samples ∨ st.paused = true) →
      (STTEngine.onVadStateChange VadState.speechEnding VadState.silence st).audio_queue
        = st.audio_queue) := by
  rw [onVadStateChange_endSilence]
  constructor
  · intro h1 h2
    have hne : st.speech_buffer ≠ [] := by
      intro h
      rw [h] at h1
      simp [STTEngine.min_samples] at h1
    simp [hne, h1, h2]
  · intro h
    rcases h with h | h
    · by_cases hne : st.speech_buffer = [] <;> simp [hne, Nat.not_lt.mpr h, h]
    · by_cases hne : st.speech_buffer = [] <;> simp [hne, h]

/-- Counterexample to C3 as stated: a candidate whose buffer holds
exactly `min_speech_ms` of audio (8000 samples = 500 ms at 16 kHz, the
daemon default) is NOT emitted — the queue stays empty and the buffer
is discarded. -/
theorem c3_min_speech_counterexample :
    (engineFixture (List.replicate 8000 0) []).speech_buffer.length =
      defaultVadConfig.min_speech_ms * defaultVadConfig.sample_rate / 1000 ∧
    (engineFixture (List.replicate 8000 0) []).paused = false ∧
    (STTEngine.onVadStateChange VadState.speechEnding VadState.silence
      (engineFixture (List.replicate 8000 0) [])).audio_queue = [] ∧
    (STTEngine.onVadStateChange VadState.speechEnding VadState.silence
      (engineFixture (List.replicate 8000 0) [])).speech_buffer = [] := by
  rw [onVadStateChange_endSilence]
  have hlen : (List.replicate 8000 (0 : ℚ)).length = 8000 := List.length_replicate _ _
  have hne : List.replicate 8000 (0 : ℚ) ≠ [] := by
    intro h
    have := congrArg List.length h
    rw [List.length_replicate] at this
    norm_num at this
  refine ⟨?_, rfl, ?_⟩
  · show (List.replicate 8000 (0 : ℚ)).length =
      defaultVadConfig.min_speech_ms * defaultVadConfig.sample_rate / 1000
    rw [hlen]
    norm_num [defaultVadConfig]
  have hcond : ¬((engineFixture (List.replicate 8000 0) []).speech_buffer ≠ [] ∧
      (engineFixture (List.replicate 8000 0) []).speech_buffer.length >
        STTEngine.min_samples ∧
      (engineFixture (List.replicate 8000 0) []).paused = false) := by
    intro h
    have h2 := h.2.1
    rw [show (engineFixture (List.replicate 8000 0) []).speech_buffer =
      List.replicate 8000 0 from rfl, hlen] at h2
    simp [STTEngine.min_samples] at h2
  rw [if_neg hcond, if_pos
    (show (engineFixture (List.replicate 8000 0) []).speech_buffer ≠ [] from hne)]
  exact ⟨rfl, rfl⟩

/-- Witness for the amended C3 on a buffer of 8001 samples. -/
theorem c3_min_speech_amended_witness :
    (engineFixture (List.replicate 8001 0) []).speech_buffer.length >
      STTEngine.min_samples ∧
    (engineFixture (List.replicate 8001 0) []).paused = false ∧
    (STTEngine.onVadStateChange VadState.speechEnding VadState.silence
      (engineFixture (List.replicate 8001 0) [])).audio_queue
      = (engineFixture (List.replicate 8001 0) []).audio_queue ++
        [⟨(engineFixture (List.replicate 8001 0) []).speech_buffer, true⟩] := by
  have hgt : (engineFixture (List.replicate 8001 0) []).speech_buffer.length >
      STTEngine.min_samples := by
    show (List.replicate 8001 (0 : ℚ)).length > STTEngine.min_samples
    rw [List.length_replicate]
    norm_num [STTEngine.min_samples]
  exact ⟨hgt, rfl, ((c3_min_speech_amended _).1 hgt rfl).1⟩

/-- C4 (corrected).  The enqueue is an unconditional append: the queue
grows by one, every previously queued utterance is retained (nothing is
dropped), and no bound is enforced — `max_queue_size` is never read and
no overflow counter exists. -/
theorem c4_queue_amended (st : EngineState)
    (h1 : st.speech_buffer.length > STTEngine.min_samples)
    (h2 : st.paused = false) :
    (STTEngine.onVadStateChange VadState.speechEnding VadState.silence st).audio_queue
      = st.audio_queue ++ [⟨st.speech_buffer, true⟩] ∧
    (STTEngine.onVadStateChange VadState.speechEnding VadState.silence st).audio_queue.length
      = st.audio_queue.length + 1 ∧
    (STTEngine.onVadStateChange VadState.speechEnding VadState.silence st).audio_queue.take
        st.audio_queue.length = st.audio_queue := by
  have hne : st.speech_buffer ≠ [] := by
    intro h
    rw [h] at h1
    simp [STTEngine.min_samples] at h1
  rw [onVadStateChange_endSilence]
  simp [hne, h1, h2, List.take_left]

/-- Counterexample to C4 as stated: pushing onto a queue already
holding `max_queue_size = 100` utterances yields a queue of 101 — the
bound is exceeded and the oldest entry is still at the head (nothing
was dropped, and no counter exists to increment). -/
theorem c4_queue_counterexample :
    (engineFixture (List.replicate 8001 0)
      (List.replicate 100 chunk0)).audio_queue.length
      = (engineFixture (List.replicate 8001 0)
          (List.replicate 100 chunk0)).config.max_queue_size ∧
    (STTEngine.onVadStateChange VadState.speechEnding VadState.silence
      (engineFixture (List.replicate 8001 0)
        (List.replicate 100 chunk0))).audio_queue.length = 101 ∧
    (STTEngine.onVadStateChange VadState.speechEnding VadState.silence
      (engineFixture (List.replicate 8001 0)
        (List.replicate 100 chunk0))).audio_queue.head?
      = some chunk0 := by
  have hlen : (List.replicate 8001 (0 : ℚ)).length = 8001 := List.length_replicate _ _
  have hne : List.replicate 8001 (0 : ℚ) ≠ [] := by
    intro h
    have := congrArg List.length h
    rw [List.length_replicate] at this
    norm_num at this
  have hcond : (engineFixture (List.replicate 8001 0)
      (List.replicate 100 chunk0)).speech_buffer ≠ [] ∧
      (engineFixture (List.replicate 8001 0)
        (List.replicate 100 chunk0)).speech_buffer.length > STTEngine.min_samples ∧
      (engineFixture (List.replicate 8001 0)
        (List.replicate 100 chunk0)).paused = false := by
    refine ⟨hne, ?_, rfl⟩
    show (List.replicate 8001 (0 : ℚ)).length > STTEngine.min_samples
    rw [hlen]
    norm_num [STTEngine.min_samples]
  refine ⟨by rw [show (engineFixture (List.replicate 8001 0)
      (List.replicate 100 chunk0)).audio_queue = List.replicate 100 chunk0 from rfl,
      List.length_replicate]; rfl, ?_, ?_⟩ <;>
    rw [onVadStateChange_endSilence, if_pos hcond]
  · show (List.replicate 100 chunk0 ++
      [(⟨List.replicate 8001 0, true⟩ : AudioChunk)]).length = 101
    rw [List.length_append, List.length_replicate]
    rfl
  · show (List.replicate 100 chunk0 ++
      [(⟨List.replicate 8001 0, true⟩ : AudioChunk)]).head? = some chunk0
    rfl

/-- Witness for the amended C4 on a one-element queue. -/
theorem c4_queue_amended_witness :
    (engineFixture (List.replicate 9000 0) [chunk0]).speech_buffer.length >
      STTEngine.min_samples ∧
    (engineFixture (List.replicate 9000 0) [chunk0]).paused = false ∧
    (STTEngine.onVadStateChange VadState.speechEnding VadState.silence
      (engineFixture (List.replicate 9000 0) [chunk0])).audio_queue.length
      = (engineFixture (List.replicate 9000 0) [chunk0]).audio_queue.length + 1 := by
  have hgt : (engineFixture (List.replicate 9000 0) [chunk0]).speech_buffer.length >
      STTEngine.min_samples := by
    show (List.replicate 9000 (0 : ℚ)).length > STTEngine.min_samples
    rw [List.length_replicate]
    norm_num [STTEngine.min_samples]
  exact ⟨hgt, rfl, (c4_queue_amended _ hgt rfl).2.1⟩

/-- C6 (corrected).  When the model load fails, `set_model` throws
`"Failed to load model: <path>"`, but the previously loaded model has
already been destroyed: the engine is left with a freshly constructed,
uninitialized wrapper configured for the new path, stopped, and with
the config pointing at the new path — the prior model is NOT
retained. -/
theorem c6_set_model_amended (st : EngineState) (path : String) :
    (STTEngine.set_model st path false).2 = some ("Failed to load model: " ++ path) ∧
    (STTEngine.set_model st path false).1.whisper =
      { config_path := path, ctx_loaded := false } ∧
    (STTEngine.set_model st path false).1.running = false ∧
    (STTEngine.set_model st path false).1.config.model_path = path := by
  unfold STTEngine.set_model STTEngine.stop STTEngine.clear_buffers
  by_cases hr : st.running = true <;> simp [hr, WhisperModel.initializeW]

/-- Counterexample to C6 as stated: starting from an engine whose
wrapper holds a loaded model, a failing `set_model` leaves the engine
with an unloaded wrapper pointing at the new path — the prior model is
gone. -/
theorem c6_set_model_counterexample :
    (engineFixture [] []).whisper.ctx_loaded = true ∧
    (STTEngine.set_model (engineFixture [] []) "models/new.bin" false).2
      = some "Failed to load model: models/new.bin" ∧
    (STTEngine.set_model (engineFixture [] []) "models/new.bin" false).1.whisper.ctx_loaded
      = false ∧
    (STTEngine.set_model (engineFixture [] []) "models/new.bin" false).1.whisper.config_path
      = "models/new.bin" ∧
    (engineFixture [] []).whisper.config_path ≠ "models/new.bin" := by
  refine ⟨rfl, rfl, rfl, rfl, by decide⟩

/-- C9 (corrected).  While paused, `feed_audio` drops the frame before
any VAD processing (the whole engine state, VAD included, is
unchanged); `resume` however clears only the paused flag — the VAD
state, the pre-speech ring and the buffers all survive it. -/
theorem c9_pause_resume_amended (st : EngineState) (f : Frame)
    (h : st.paused = true) :
    STTEngine.feed_audio st f = st ∧
    (STTEngine.resume st).paused = false ∧
    (STTEngine.resume st).vad = st.vad ∧
    (STTEngine.resume st).speech_buffer = st.speech_buffer ∧
    (STTEngine.resume st).audio_queue = st.audio_queue := by
  refine ⟨?_, rfl, rfl, rfl, rfl⟩
  unfold STTEngine.feed_audio
  simp [h]

/-- Counterexample to C9 as stated: resuming a paused engine whose VAD
sits in `SPEECH` with a non-empty pre-speech ring leaves both exactly
as they were — `resume` does not clear them. -/
theorem c9_pause_resume_counterexample :
    (STTEngine.resume
      { engineFixture [1] [] with
        paused := true
        vad := { VAD.init defaultVadConfig with
                  state := VadState.speech, audio_buffer := [1] } }).vad.state
      = VadState.speech ∧
    (STTEngine.resume
      { engineFixture [1] [] with
        paused := true
        vad := { VAD.init defaultVadConfig with
                  state := VadState.speech, audio_buffer := [1] } }).vad.audio_buffer
      = [1] ∧
    VadState.speech ≠ VadState.silence := by
  exact ⟨rfl, rfl, by decide⟩

/-- Witness for the amended C9 on a concrete paused engine. -/
theorem c9_pause_resume_amended_witness :
    { engineFixture [1] [] with paused := true }.paused = true ∧
    STTEngine.feed_audio { engineFixture [1] [] with paused := true }
        { samples := [1], energy := 1 }
      = { engineFixture [1] [] with paused := true } :=
  ⟨rfl, (c9_pause_resume_amended { engineFixture [1] [] with paused := true }
    { samples := [1], energy := 1 } rfl).1⟩

/-- C10 (confirmed).  With `energy_threshold = 0.0`, a running,
un-paused engine treats every frame as `SPEECH` no matter what the VAD
decided: `feed_audio` always appends the frame's samples to the speech
buffer (after the VAD and its callback have run) and marks
`in_speech`. -/
theorem c10_zero_threshold (st : EngineState) (f : Frame)
    (h1 : st.running = true) (h2 : st.paused = false)
    (h3 : st.config.vad_config.energy_threshold = 0) :
    STTEngine.feed_audio st f =
      { STTEngine.vadPhase st f with
        speech_buffer := (STTEngine.vadPhase st f).speech_buffer ++ f.samples
        in_speech := true
        processed_samples := (STTEngine.vadPhase st f).processed_samples +
          f.samples.length } := by
  unfold STTEngine.feed_audio
  simp [h1, h2, h3]

/-- Witness for C10 on the zero-threshold fixture. -/
theorem c10_zero_threshold_witness :
    engineFixtureZeroThreshold.running = true ∧
    engineFixtureZeroThreshold.paused = false ∧
    engineFixtureZeroThreshold.config.vad_config.energy_threshold = 0 ∧
    STTEngine.feed_audio engineFixtureZeroThreshold { samples := [1], energy := 1 } =
      { STTEngine.vadPhase engineFixtureZeroThreshold { samples := [1], energy := 1 } with
        speech_buffer := (STTEngine.vadPhase engineFixtureZeroThreshold
          { samples := [1], energy := 1 }).speech_buffer ++ [1]
        in_speech := true
        processed_samples := (STTEngine.vadPhase engineFixtureZeroThreshold
          { samples := [1], energy := 1 }).processed_samples + 1 } :=
  ⟨rfl, rfl, rfl,
   c10_zero_threshold engineFixtureZeroThreshold { samples := [1], energy := 1 }
     rfl rfl rfl⟩

/-! ### Text cleanup (C7) -/

open WhisperWrapper in
theorem rFDS_none_rec : ∀ l : List Char,
    replaceFirstDoubleSpace l = none → collapseSpacesRec l = l := by
  intro l
  induction l with
  | nil => intro _; rfl
  | cons c rest ih =>
      intro h
      rw [WhisperWrapper.replaceFirstDoubleSpace] at h
      by_cases hc : c = ' ' ∧ rest.head? = some ' '
      · simp [hc] at h
      · simp [hc] at h
        rw [WhisperWrapper.collapseSpacesRec, if_neg hc, ih h]

open WhisperWrapper in
theorem rFDS_head (rest r' : List Char)
    (h : replaceFirstDoubleSpace rest = some r')
    (hh : rest.head? ≠ some ' ') : r'.head? = rest.head? := by
  cases rest with
  | nil => simp [WhisperWrapper.replaceFirstDoubleSpace] at h
  | cons x t =>
      rw [WhisperWrapper.replaceFirstDoubleSpace] at h
      by_cases hx : x = ' ' ∧ t.head? = some ' '
      · exact absurd (by simp [hx.1]) hh
      · simp [hx] at h
        obtain ⟨r'', _, hr⟩ := h
        rw [← hr]
        rfl

open WhisperWrapper in
theorem rFDS_some_rec : ∀ l l' : List Char,
    replaceFirstDoubleSpace l = some l' →
    collapseSpacesRec l = collapseSpacesRec l' := by
  intro l
  induction l with
  | nil => intro l' h; simp [WhisperWrapper.replaceFirstDoubleSpace] at h
  | cons c rest ih =>
      intro l' h
      rw [WhisperWrapper.replaceFirstDoubleSpace] at h
      by_cases hc : c = ' ' ∧ rest.head? = some ' '
      · simp [hc] at h
        rw [WhisperWrapper.collapseSpacesRec, if_pos hc, ← h]
      · simp [hc] at h
        obtain ⟨r', hr', hl⟩ := h
        subst hl
        rw [WhisperWrapper.collapseSpacesRec, if_neg hc, ih r' hr',
          WhisperWrapper.collapseSpacesRec]
        have hcond : ¬(c = ' ' ∧ r'.head? = some ' ') := by
          intro hand
          by_cases hrest : rest.head? = some ' '
          · exact hc ⟨hand.1, hrest⟩
          · exact hrest (by rw [← rFDS_head rest r' hr' hrest]; exact hand.2)
        rw [if_neg hcond]

open WhisperWrapper in
/-- The double-space replacement loop computes the structural
space-run collapse. -/
theorem collapseLoop_eq_rec (l : List Char) :
    collapseSpacesLoop l = collapseSpacesRec l := by
  have H : ∀ (n : ℕ) (l : List Char), l.length = n →
      collapseSpacesLoop l = collapseSpacesRec l := by
    intro n
    induction n using Nat.strong_induction_on with
    | _ n ih =>
        intro l hn
        rw [WhisperWrapper.collapseSpacesLoop]
        cases hr : replaceFirstDoubleSpace l with
        | none => rw [rFDS_none_rec l hr]
        | some l' =>
            have hlt := replaceFirstDoubleSpace_length hr
            show collapseSpacesLoop l' = collapseSpacesRec l
            rw [ih l'.length (by omega) l' rfl, rFDS_some_rec l l' hr]
  exact H l.length l rfl

open WhisperWrapper in
/-- Evaluation form of `process_stream_emit` with the loop replaced by
the structural collapse. -/
theorem process_stream_emit_eval (raw : List Char) :
    process_stream_emit raw =
      (if raw = [] then none
      else if (trimCpp (collapseSpacesRec raw)).any Char.isAlphanum ∧
          1 < (trimCpp (collapseSpacesRec raw)).length then
        some { text := trimCpp (collapseSpacesRec raw), is_final := true }
      else none) := by
  unfold WhisperWrapper.process_stream_emit WhisperWrapper.cleanupText
  rw [collapseLoop_eq_rec]

open WhisperWrapper in
/-- C7 (corrected).  The cleanup applied before emission: the
find-and-replace loop collapses runs of SPACE characters (only) to a
single space (first conjunct); any emitted result is final, carries
exactly the space-collapsed then trimmed text, contains an
alphanumeric character and is longer than one character (second
conjunct); a text failing either rejection test is never emitted
(third conjunct). -/
theorem c7_cleanup_amended :
    (∀ l : List Char, collapseSpacesLoop l = collapseSpacesRec l)
    ∧ (∀ (raw : List Char) (r : StreamResult), process_stream_emit raw = some r →
        r.is_final = true ∧ r.text = trimCpp (collapseSpacesRec raw) ∧
        r.text.any Char.isAlphanum = true ∧ 1 < r.text.length)
    ∧ (∀ raw : List Char,
        ((trimCpp (collapseSpacesRec raw)).any Char.isAlphanum = false ∨
          (trimCpp (collapseSpacesRec raw)).length ≤ 1) →
        process_stream_emit raw = none) := by
  refine ⟨collapseLoop_eq_rec, ?_, ?_⟩
  · intro raw r h
    rw [process_stream_emit_eval] at h
    split_ifs at h with h0 hc
    cases h
    exact ⟨rfl, rfl, hc.1, hc.2⟩
  · intro raw h
    have hc : ¬((trimCpp (collapseSpacesRec raw)).any Char.isAlphanum ∧
        1 < (trimCpp (collapseSpacesRec raw)).length) := by
      rcases h with h | h
      · intro hand; rw [hand.1] at h; cases h
      · intro hand; exact absurd hand.2 (Nat.not_lt.mpr h)
    rw [process_stream_emit_eval]
    by_cases h0 : raw = []
    · rw [if_pos h0]
    · rw [if_neg h0, if_neg hc]

open WhisperWrapper in
/-- Counterexample to C7 as stated: the text `"a\t\tb"` contains an
internal run of two whitespace characters (tabs), yet it is emitted
unchanged — only space runs are collapsed, whereas the claimed cleanup
(collapse runs of internal whitespace) would produce `"a b"`. -/
theorem c7_cleanup_counterexample :
    process_stream_emit "a\t\tb".data =
      some { text := "a\t\tb".data, is_final := true } ∧
    trimCpp (specWsCollapse "a\t\tb".data) = "a b".data ∧
    "a\t\tb".data ≠ "a b".data := by
  rw [process_stream_emit_eval]
  refine ⟨?_, ?_, ?_⟩ <;> decide

open WhisperWrapper in
/-- Witness for the amended C7 on the raw text `" ok  now "`. -/
theorem c7_cleanup_amended_witness :
    process_stream_emit " ok  now ".data =
      some { text := "ok now".data, is_final := true } ∧
    ("ok now".data.any Char.isAlphanum = true ∧ 1 < "ok now".data.length) := by
  have h : process_stream_emit " ok  now ".data =
      some { text := "ok now".data, is_final := true } := by
    rw [process_stream_emit_eval]
    decide
  have h2 := c7_cleanup_amended.2.1 " ok  now ".data _ h
  exact ⟨h, h2.2.2.1, h2.2.2.2⟩

/-! ### Command dispatch (C5) -/

/-- C5 (corrected).  For a Command whose action is unrecognised, the
daemon's handler catches its own `"Unknown action"` exception and
returns it as an ordinary result, so the server replies with an
ACKNOWLEDGMENT (type 6) whose data is
`{success: true, result: {error: "Unknown action: X", success: false}}`;
indeed no Command ever produces an ERROR reply, because the installed
handler never lets an exception escape (second conjunct). -/
theorem c5_unknown_action_amended (engineResult : String → Json → Json)
    (msg : Message)
    (h : ¬(msg.data.valueStr "action" "" = "pause" ∨
        msg.data.valueStr "action" "" = "resume" ∨
        msg.data.valueStr "action" "" = "get_status" ∨
        msg.data.valueStr "action" "" = "get_config" ∨
        msg.data.valueStr "action" "" = "set_config" ∨
        msg.data.valueStr "action" "" = "set_language" ∨
        msg.data.valueStr "action" "" = "set_model" ∨
        msg.data.valueStr "action" "" = "set_vad_sensitivity" ∨
        msg.data.valueStr "action" "" = "get_metrics")) :
    Server.processCommand (Main.commandHandler engineResult) msg =
      { type := MsgType.acknowledgment
        id := msg.id
        data := Json.obj [("success", Json.bool true),
          ("result", Json.obj
            [("error", Json.str ("Unknown action: " ++ msg.data.valueStr "action" "")),
             ("success", Json.bool false)])] } ∧
    (∀ m : Message,
      (Server.processCommand (Main.commandHandler engineResult) m).type =
        MsgType.acknowledgment) := by
  constructor
  · unfold Server.processCommand Main.commandHandler
    dsimp only
    rw [if_neg h]
  · intro m
    unfold Server.processCommand Main.commandHandler
    rfl

/-- Counterexample to C5 as stated: the reply to the unknown action
`"frobnicate"` is an ACKNOWLEDGMENT (wire type 6), not an `Error`
event (wire type 5); the `"Unknown action: frobnicate"` text appears
under `data.result.error`, not as an Error message field. -/
theorem c5_unknown_action_counterexample :
    (Server.processCommand (Main.commandHandler (fun _ _ => Json.null))
      { type := MsgType.command, id := "q1"
        data := Json.obj [("action", Json.str "frobnicate")] }).type
      = MsgType.acknowledgment ∧
    MsgType.toNat (Server.processCommand (Main.commandHandler (fun _ _ => Json.null))
      { type := MsgType.command, id := "q1"
        data := Json.obj [("action", Json.str "frobnicate")] }).type = 6 ∧
    (Server.processCommand (Main.commandHandler (fun _ _ => Json.null))
      { type := MsgType.command, id := "q1"
        data := Json.obj [("action", Json.str "frobnicate")] }).type ≠ MsgType.error ∧
    (Server.processCommand (Main.commandHandler (fun _ _ => Json.null))
      { type := MsgType.command, id := "q1"
        data := Json.obj [("action", Json.str "frobnicate")] }).data
      = Json.obj [("success", Json.bool true),
          ("result", Json.obj
            [("error", Json.str "Unknown action: frobnicate"),
             ("success", Json.bool false)])] := by
  refine ⟨rfl, rfl, by decide, rfl⟩

/-- Witness for the amended C5 at the action `"nope"`. -/
theorem c5_unknown_action_amended_witness :
    ¬((Json.obj [("action", Json.str "nope")] : Json).valueStr "action" "" = "pause" ∨
      (Json.obj [("action", Json.str "nope")] : Json).valueStr "action" "" = "resume" ∨
      (Json.obj [("action", Json.str "nope")] : Json).valueStr "action" "" = "get_status" ∨
      (Json.obj [("action", Json.str "nope")] : Json).valueStr "action" "" = "get_config" ∨
      (Json.obj [("action", Json.str "nope")] : Json).valueStr "action" "" = "set_config" ∨
      (Json.obj [("action", Json.str "nope")] : Json).valueStr "action" "" = "set_language" ∨
      (Json.obj [("action", Json.str "nope")] : Json).valueStr "action" "" = "set_model" ∨
      (Json.obj [("action", Json.str "nope")] : Json).valueStr "action" ""
        = "set_vad_sensitivity" ∨
      (Json.obj [("action", Json.str "nope")] : Json).valueStr "action" "" = "get_metrics") ∧
    (∀ m : Message,
      (Server.processCommand (Main.commandHandler (fun _ _ => Json.null)) m).type =
        MsgType.acknowledgment) := by
  have hne : ¬((Json.obj [("action", Json.str "nope")] : Json).valueStr "action" "" = "pause" ∨
      (Json.obj [("action", Json.str "nope")] : Json).valueStr "action" "" = "resume" ∨
      (Json.obj [("action", Json.str "nope")] : Json).valueStr "action" "" = "get_status" ∨
      (Json.obj [("action", Json.str "nope")] : Json).valueStr "action" "" = "get_config" ∨
      (Json.obj [("action", Json.str "nope")] : Json).valueStr "action" "" = "set_config" ∨
      (Json.obj [("action", Json.str "nope")] : Json).valueStr "action" "" = "set_language" ∨
      (Json.obj [("action", Json.str "nope")] : Json).valueStr "action" "" = "set_model" ∨
      (Json.obj [("action", Json.str "nope")] : Json).valueStr "action" ""
        = "set_vad_sensitivity" ∨
      (Json.obj [("action", Json.str "nope")] : Json).valueStr "action" "" = "get_metrics") := by
    decide
  exact ⟨hne,
    (c5_unknown_action_amended (fun _ _ => Json.null)
      { type := MsgType.command, id := "w", data := Json.obj [("action", Json.str "nope")] }
      hne).2⟩

/-! ### Wire framing and client isolation (C8) -/

theorem cleanupClient_lookup (clients : List (ℕ × Server.ClientRec)) (fd fd' : ℕ)
    (h : fd' ≠ fd) :
    (Server.cleanupClient clients fd).lookup fd' = clients.lookup fd' := by
  induction clients with
  | nil => rfl
  | cons p rest ih =>
      obtain ⟨k, v⟩ := p
      unfold Server.cleanupClient at ih ⊢
      by_cases hp : k = fd
      · subst hp
        have h2 : (fd' == k) = false := by simp [h]
        simp [List.filter, List.lookup, h2, ih]
      · have h1 : (k != fd) = true := by simp [hp]
        rw [List.filter]
        rw [h1]
        cases hbeq : fd' == k <;> simp [List.lookup, hbeq, ih]

/-- C8 (confirmed).  The framing and error handling of
`receive_message`/`handle_client`: a 4-byte big-endian length prefix
above 1 MiB makes the receive fail (first conjunct); within the limit,
exactly `length` payload bytes are taken and handed to the JSON parser,
whose failure also makes the receive fail (second conjunct, with
`parse` universally quantified so a malformed payload returns `none`);
any failed receive closes the connection and removes exactly that
client's subscriber record (third conjunct); every other client's
record is untouched (fourth conjunct). -/
theorem c8_framing_isolation (parse : List ℕ → Option Message)
    (clients : List (ℕ × Server.ClientRec)) (fd : ℕ)
    (b0 b1 b2 b3 : ℕ) (rest : List ℕ) :
    (Server.decodeBE32 b0 b1 b2 b3 > Server.maxMessageLen →
      Server.receiveMessage parse (b0 :: b1 :: b2 :: b3 :: rest) = none)
    ∧ (Server.decodeBE32 b0 b1 b2 b3 ≤ Server.maxMessageLen →
        Server.decodeBE32 b0 b1 b2 b3 ≤ rest.length →
        Server.receiveMessage parse (b0 :: b1 :: b2 :: b3 :: rest) =
          parse (rest.take (Server.decodeBE32 b0 b1 b2 b3)))
    ∧ (∀ input : List ℕ, Server.receiveMessage parse input = none →
        Server.handleClientRecv parse clients fd input =
          (Server.cleanupClient clients fd, false))
    ∧ (∀ fd' : ℕ, fd' ≠ fd →
        (Server.cleanupClient clients fd).lookup fd' = clients.lookup fd') := by
  refine ⟨?_, ?_, ?_, ?_⟩
  · intro h
    unfold Server.receiveMessage
    dsimp only
    rw [if_pos h]
  · intro h1 h2
    unfold Server.receiveMessage
    dsimp only
    rw [if_neg (Nat.not_lt.mpr h1), if_neg (Nat.not_lt.mpr h2)]
  · intro input h
    unfold Server.handleClientRecv
    rw [h]
  · exact fun fd' h => cleanupClient_lookup clients fd fd' h

/-- Witness for C8: the prefix bytes `00 10 00 01` decode to 1048577
(one over the 1 MiB limit), the receive fails, client 1 is reaped, and
client 2's record survives unchanged. -/
theorem c8_framing_isolation_witness :
    Server.decodeBE32 0 16 0 1 > Server.maxMessageLen ∧
    Server.receiveMessage (fun _ => none) [0, 16, 0, 1] = none ∧
    Server.handleClientRecv (fun _ => none) clientsFixture 1 [0, 16, 0, 1] =
      (Server.cleanupClient clientsFixture 1, false) ∧
    (Server.cleanupClient clientsFixture 1).lookup 2 = clientsFixture.lookup 2 := by
  have hgt : Server.decodeBE32 0 16 0 1 > Server.maxMessageLen := by decide
  have h1 := (c8_framing_isolation (fun _ => none) clientsFixture 1 0 16 0 1 []).1 hgt
  have h3 := (c8_framing_isolation (fun _ => none) clientsFixture 1 0 16 0 1 []).2.2.1
    [0, 16, 0, 1] h1
  have h4 := (c8_framing_isolation (fun _ => none) clientsFixture 1 0 16 0 1 []).2.2.2
    2 (by decide)
  exact ⟨hgt, h1, h3, h4⟩

end RtStt
